import Mathlib

/-!
Shallow embedding of `src/scraper.py` (Playwright-Web-Scraper).

The repository drives a headless browser over a paginated listing and
persists extracted records to a CSV file.  Browser and filesystem effects
are modelled explicitly: a page's pagination anchors become a list of
`href` strings, a page's listings become a list of `Listing` values, the
output file becomes an `Option (List CsvLine)` (`none` = the file does not
exist), and the outcome of each navigation, extraction or delay during
`WebScraper.run` becomes an `Event` in a trace.  Exception branches of the
Python code (`try`/`except`) are modelled by explicit fault flags or
outcome constructors.
-/

namespace Scraper

/-- Chars `p` form the leading segment of chars `l` (mirrors Python's
`str.startswith` used implicitly by substring search). -/
def charsLead : List Char → List Char → Bool
  | [], _ => true
  | _ :: _, [] => false
  | p :: ps, c :: cs => p == c && charsLead ps cs

/-- Chars `pat` occur contiguously somewhere inside `l`
(mirrors Python's `pat in s`). -/
def charsHaveSub (pat : List Char) : List Char → Bool
  | [] => charsLead pat []
  | c :: t => charsLead pat (c :: t) || charsHaveSub pat t

/-- String form of `charsHaveSub`: Python's `pat in s`. -/
def strContains (s pat : String) : Bool :=
  charsHaveSub pat.toList s.toList

/-- Digits-to-number conversion, Python's `int` on a nonempty digit run. -/
def digitsToNat (ds : List Char) : Nat :=
  ds.foldl (fun a c => a * 10 + (c.toNat - 48)) 0

/-- Model of `re.search(r"\?page=(\d+)", href)` from
`WebScraper.get_total_pages` (src/scraper.py line 56): scan left to right
for the first position where the literal `?page=` is followed by at least
one digit, and return the value of the maximal digit run there. -/
def findPageNum : List Char → Option Nat
  | [] => none
  | c :: rest =>
    if charsLead ("?page=".toList) (c :: rest) then
      let ds := ((c :: rest).drop 6).takeWhile (fun d => d.isDigit)
      if ds.isEmpty then findPageNum rest else some (digitsToNat ds)
    else findPageNum rest

/-- Page numbers parsed by the loop of `WebScraper.get_total_pages`
(src/scraper.py lines 52-58): the selector `a[href*='?page=']` keeps the
anchors whose `href` contains `?page=`, then the regex extracts a number
from each kept `href` when it matches. -/
def parsedPages (hrefs : List String) : List Nat :=
  (hrefs.filter (fun h => strContains h "?page=")).filterMap
    (fun h => findPageNum h.toList)

/-- Python's `max` on a nonempty list (the code guards `if pages:` before
calling it; the `[]` case is never reached there). -/
def listMax : List Nat → Nat
  | [] => 0
  | [p] => p
  | p :: q :: r => max p (listMax (q :: r))

/-- `WebScraper.get_total_pages` (src/scraper.py lines 50-64).  `hrefs`
are the `href` attributes of the page's anchors; `fault = true` models the
`except` branch (any exception while querying the DOM), which returns 1. -/
def get_total_pages (hrefs : List String) (fault : Bool) : Nat :=
  if fault then 1
  else
    match parsedPages hrefs with
    | [] => 1
    | p :: ps => listMax (p :: ps)

/-- Outcome of one browser navigation, as observed by
`WebScraper.navigate_to_url` (src/scraper.py lines 34-48):
`loaded s` = `page.goto` returned a response with status `s`;
`timeout` = `TimeoutError` raised; `noResponse` = `goto` returned `None`
so `response.status` raises; `fault` = any other exception. -/
inductive NavOutcome where
  | loaded (status : Nat)
  | timeout
  | noResponse
  | fault
deriving DecidableEq

/-- `WebScraper.navigate_to_url` (src/scraper.py lines 34-48): returns a
boolean, catching every exception; `False` on status >= 400, timeout, or
any other fault. -/
def navigate_to_url : NavOutcome → Bool
  | .loaded s => if s ≥ 400 then false else true
  | .timeout => false
  | .noResponse => false
  | .fault => false

/-- One `.company-item` listing as seen by `WebScraper.extract_data`:
each of the four sub-fields is `none` when `query_selector` finds no
element, `some s` when it finds one whose `inner_text()` is `s`. -/
structure Listing where
  name : Option String
  location : Option String
  revenue : Option String
  employees : Option String
deriving DecidableEq

/-- One output record: the dict built in `WebScraper.extract_data`
(src/scraper.py lines 86-92).  Its keys in insertion order are
name, location, revenue, employees, timestamp. -/
structure Record where
  name : String
  location : String
  revenue : String
  employees : String
  timestamp : String
deriving DecidableEq

/-- Python's `str.strip()` with no argument: remove leading and trailing
whitespace characters. -/
def pyStrip (s : String) : String :=
  String.mk
    (((s.toList.dropWhile Char.isWhitespace).reverse.dropWhile
      Char.isWhitespace).reverse)

/-- The record built for one listing (src/scraper.py lines 81-92): an
absent sub-field becomes the literal `"N/A"`, and `.strip()` is applied to
the chosen text; `ts` is the capture timestamp `datetime.now().strftime`. -/
def recordOf (ts : String) (c : Listing) : Record :=
  { name := pyStrip (c.name.getD "N/A")
    location := pyStrip (c.location.getD "N/A")
    revenue := pyStrip (c.revenue.getD "N/A")
    employees := pyStrip (c.employees.getD "N/A")
    timestamp := ts }

/-- `WebScraper.extract_data` (src/scraper.py lines 71-98): maps
`recordOf` over the listings; `fault = true` models the `except` branch
(any exception during extraction), which returns the empty list. -/
def extract_data (listings : List Listing) (ts : String) (fault : Bool) :
    List Record :=
  if fault then [] else listings.map (recordOf ts)

/-- One line of the output CSV file: a header row carrying the field
names, or a data row carrying one record. -/
inductive CsvLine where
  | header (fields : List String)
  | row (r : Record)
deriving DecidableEq

/-- The output file: `none` when it does not exist on disk, `some lines`
when it exists with those lines (possibly empty). -/
abbrev FileState := Option (List CsvLine)

/-- The field names `list(data[0].keys())` of a `Record` dict, in the
insertion order of src/scraper.py lines 86-92. -/
def field_names : List String :=
  ["name", "location", "revenue", "employees", "timestamp"]

/-- `WebScraper.save_to_csv` (src/scraper.py lines 100-129) on the
modelled file.  Empty data: returns `False`, file untouched.  In mode
`'a'` the code first tries `open(self.output_file, 'r')`: success (the
file exists, empty or not) suppresses the header; `FileNotFoundError`
(the file does not exist) keeps it.  Mode `'w'` truncates; mode `'a'`
appends.  The header row and the data rows are then written. -/
def save_to_csv (file : FileState) (data : List Record) (mode : Char) :
    FileState × Bool :=
  if data.isEmpty then (file, false)
  else
    let header : Bool :=
      if mode = 'a' then
        match file with
        | some _ => false
        | none => true
      else true
    let prior : List CsvLine := if mode = 'a' then file.getD [] else []
    (some (prior ++ (if header then [CsvLine.header field_names] else [])
      ++ data.map CsvLine.row), true)

/-- The page URL built by `WebScraper.run` for page `k >= 2`
(src/scraper.py line 151):
`f"{self.url}{'&' if '?' in self.url else '?'}page={page}"`. -/
def pageUrl (base : String) (k : Nat) : String :=
  base ++ (if base.toList.contains '?' then "&" else "?") ++ "page=" ++ toString k

/-- One observable step of `WebScraper.run`: a navigation attempt (with
its URL and boolean outcome), a per-page extraction result, a call to
`save_to_csv` with its batch, a randomized inter-page sleep with its drawn
value, or the final browser close. -/
inductive Event where
  | navigate (url : String) (ok : Bool)
  | extract (page : Nat) (records : List Record)
  | save (batch : List Record)
  | delay (d : ℚ)
  | close
deriving DecidableEq

/-- The environment one `WebScraper.run` executes against.  `navOk k` is
the result of `navigate_to_url` for page `k` (`k = 1` is the base URL);
`totalDiscovered` is what `get_total_pages` returns after the first
navigation; `pageRecords k` is what `extract_data` returns on page `k`;
`delayVal k` is the value `random.uniform(*self.delay_range)` draws for
the sleep after page `k`. -/
structure RunEnv where
  url : String
  navOk : Nat → Bool
  totalDiscovered : Nat
  pageRecords : Nat → List Record
  delayVal : Nat → ℚ

/-- State threaded through the page loop of `WebScraper.run`: the trace
of events so far, the `all_data` accumulator, and the output file. -/
structure LoopState where
  events : List Event
  acc : List Record
  file : FileState

/-- Page `p` of the loop is skipped when `p > 1` and its navigation
fails (src/scraper.py lines 150-155, the `continue`). -/
def skipped (env : RunEnv) (p : Nat) : Bool :=
  decide (1 < p) && !env.navOk p

/-- The loop flushes after page `p` when `p % 5 == 0 or p == total`
(src/scraper.py line 163). -/
def flushAt (total p : Nat) : Bool :=
  p % 5 == 0 || p == total

/-- Events emitted by one non-skipped iteration of the loop of
`WebScraper.run` for page `p` with accumulator `acc` (src/scraper.py
lines 149-168): the navigation for `p > 1`, the extraction, the
incremental `save_to_csv` call when due, and the inter-page delay when
pages remain. -/
def stepEvents (env : RunEnv) (total p : Nat) (acc : List Record) :
    List Event :=
  (if decide (1 < p) then [Event.navigate (pageUrl env.url p) true] else [])
    ++ [Event.extract p (env.pageRecords p)]
    ++ (if flushAt total p then [Event.save (acc ++ env.pageRecords p)] else [])
    ++ (if decide (p < total) then [Event.delay (env.delayVal p)] else [])

/-- The `all_data` accumulator after a non-skipped iteration for page
`p`: extended by the page's records, reset to `[]` by a flush
(src/scraper.py lines 158, 164-165). -/
def stepAcc (env : RunEnv) (total p : Nat) (acc : List Record) :
    List Record :=
  if flushAt total p then [] else acc ++ env.pageRecords p

/-- The output file after a non-skipped iteration for page `p`: the loop
calls `self.save_to_csv(all_data)` with the DEFAULT mode `'w'`
(src/scraper.py line 164). -/
def stepFile (env : RunEnv) (total p : Nat) (acc : List Record)
    (f : FileState) : FileState :=
  if flushAt total p then (save_to_csv f (acc ++ env.pageRecords p) 'w').1
  else f

/-- The page loop `for page in range(1, total_pages + 1)` of
`WebScraper.run` (src/scraper.py lines 149-168) over the remaining list
of page numbers.  A skipped page only logs its failed navigation and
continues — in particular it reaches neither the flush nor the delay. -/
def runPages (env : RunEnv) (total : Nat) :
    List Nat → LoopState → LoopState
  | [], s => s
  | p :: rest, s =>
    if skipped env p then
      runPages env total rest
        { s with events := s.events ++ [Event.navigate (pageUrl env.url p) false] }
    else
      runPages env total rest
        { events := s.events ++ stepEvents env total p s.acc
          acc := stepAcc env total p s.acc
          file := stepFile env total p s.acc s.file }

/-- Python truthiness clamp `if max_pages and max_pages < total_pages`
(src/scraper.py lines 143-144): `max_pages = 0` is falsy and does not
clamp. -/
def clampTotal (maxPages : Option Nat) (t : Nat) : Nat :=
  match maxPages with
  | none => t
  | some m => if m != 0 && decide (m < t) then m else t

/-- Result of one `WebScraper.run`: its event trace and the final state
of the output file. -/
structure RunResult where
  events : List Event
  file : FileState
deriving DecidableEq

/-- The clamped page total `total_pages` used by `WebScraper.run`
(src/scraper.py lines 142-144). -/
def runTotal (env : RunEnv) (maxPages : Option Nat) : Nat :=
  clampTotal maxPages env.totalDiscovered

/-- The loop state after the page loop of `WebScraper.run`: the loop
starts from the successful first navigation, an empty `all_data`, and the
initial output file. -/
def runLoopResult (env : RunEnv) (f0 : FileState) (maxPages : Option Nat) :
    LoopState :=
  runPages env (runTotal env maxPages)
    (List.range' 1 (runTotal env maxPages))
    ⟨[Event.navigate env.url true], [], f0⟩

/-- `WebScraper.run` (src/scraper.py lines 137-175) against environment
`env`, initial output file `f0` and optional `max_pages`.  If the first
navigation fails the whole `if` body is skipped and the browser is closed
directly.  Otherwise the page loop runs, any unflushed remainder is saved
(`if all_data: self.save_to_csv(all_data)`, again with the default mode
`'w'`), and the browser is closed. -/
def run (env : RunEnv) (f0 : FileState) (maxPages : Option Nat) :
    RunResult :=
  if env.navOk 1 then
    if (runLoopResult env f0 maxPages).acc.isEmpty then
      ⟨(runLoopResult env f0 maxPages).events ++ [Event.close],
        (runLoopResult env f0 maxPages).file⟩
    else
      ⟨(runLoopResult env f0 maxPages).events ++
          [Event.save (runLoopResult env f0 maxPages).acc, Event.close],
        (save_to_csv (runLoopResult env f0 maxPages).file
          (runLoopResult env f0 maxPages).acc 'w').1⟩
  else
    ⟨[Event.navigate env.url false, Event.close], f0⟩

/-- The delay values of a trace, in order. -/
def delaysIn (es : List Event) : List ℚ :=
  es.filterMap fun e => match e with | .delay d => some d | _ => none

/-- The navigation attempts of a trace: (URL, outcome), in order. -/
def navsIn (es : List Event) : List (String × Bool) :=
  es.filterMap fun e => match e with | .navigate u ok => some (u, ok) | _ => none

/-- The per-page extraction results of a trace, in order. -/
def extractsIn (es : List Event) : List (Nat × List Record) :=
  es.filterMap fun e => match e with | .extract p d => some (p, d) | _ => none

/-- The batches passed to `save_to_csv` during a trace, in order. -/
def savesIn (es : List Event) : List (List Record) :=
  es.filterMap fun e => match e with | .save b => some b | _ => none

/-- Concatenation of a list of lists. -/
def joinAll : List (List Record) → List Record
  | [] => []
  | l :: ls => l ++ joinAll ls

/-- Writer-call and extraction observations of a trace, in order:
`Sum.inl p` marks the extraction of page `p`, `Sum.inr b` marks a call to
`save_to_csv` with batch `b`. -/
def obsIn (es : List Event) : List (Nat ⊕ List Record) :=
  es.filterMap fun e => match e with
    | .extract p _ => some (Sum.inl p)
    | .save b => some (Sum.inr b)
    | _ => none

/-- A concrete sample record, distinguishable by page and index. -/
def mkRec (p i : Nat) : Record :=
  { name := toString p ++ "-" ++ toString i, location := "L", revenue := "R",
    employees := "E", timestamp := "T" }

/-- Four concrete records for page `p`. -/
def recsOf (p : Nat) : List Record :=
  (List.range 4).map (mkRec p)

/-- Concrete environment: 12 discovered pages, 4 records per page, every
navigation succeeds (the scenario of the spec's flush-cadence property). -/
def env12 : RunEnv :=
  { url := "https://x.test/list", navOk := fun _ => true, totalDiscovered := 12,
    pageRecords := recsOf, delayVal := fun _ => 2 }

/-- Concrete environment: 3 discovered pages, one record per page, the
navigation to page 2 fails, all other navigations succeed. -/
def env3 : RunEnv :=
  { url := "u", navOk := fun p => p != 2, totalDiscovered := 3,
    pageRecords := fun p => [mkRec p 0], delayVal := fun _ => 2 }

/-- Concrete environment matching the spec's URL scenario: base URL
`https://x.test/list`, 3 discovered pages, all navigations succeed. -/
def envX : RunEnv :=
  { url := "https://x.test/list", navOk := fun _ => true, totalDiscovered := 3,
    pageRecords := fun p => [mkRec p 0], delayVal := fun _ => 2 }

/-- Concrete environment whose very first navigation fails. -/
def envFail : RunEnv :=
  { url := "https://x.test/list", navOk := fun _ => false, totalDiscovered := 7,
    pageRecords := fun p => [mkRec p 0], delayVal := fun _ => 2 }

/-- Records of pages 1-5 of `env12`, in insertion order. -/
def batch1 : List Record := joinAll ((List.range' 1 5).map recsOf)

/-- Records of pages 6-10 of `env12`, in insertion order. -/
def batch2 : List Record := joinAll ((List.range' 6 5).map recsOf)

/-- Records of pages 11-12 of `env12`, in insertion order. -/
def batch3 : List Record := joinAll ((List.range' 11 2).map recsOf)

theorem listMax_mem : ∀ (l : List Nat), l ≠ [] → listMax l ∈ l
  | [], h => absurd rfl h
  | [_], _ => by simp [listMax]
  | p :: q :: r, _ => by
    rcases le_total p (listMax (q :: r)) with h | h
    · have := listMax_mem (q :: r) (by simp)
      simp only [listMax, max_eq_right h]
      exact List.mem_cons_of_mem p this
    · simp [listMax, max_eq_left h]

theorem le_listMax : ∀ (l : List Nat), ∀ x ∈ l, x ≤ listMax l
  | [_], x, hx => by simp_all [listMax]
  | p :: q :: r, x, hx => by
    rcases List.mem_cons.mp hx with h | h
    · simpa [listMax, h] using le_max_left p (listMax (q :: r))
    · exact le_trans (le_listMax (q :: r) x h)
        (by simpa [listMax] using le_max_right p (listMax (q :: r)))

/-- C2: `get_total_pages` is claimed to return an integer `>= 1` on every
page.  An anchor pointing at `?page=0` refutes this: the parsed list is
`[0]`, its maximum is `0`, and the function returns `0 < 1`. -/
theorem get_total_pages_zero_cex :
    get_total_pages ["/list?page=0"] false = 0 ∧
    ¬ 1 ≤ get_total_pages ["/list?page=0"] false := by
  constructor
  · rfl
  · decide

/-- C2 (amended): `get_total_pages` never raises; it returns 1 when the
DOM query faults or when no anchor parses, and otherwise the maximum of
the parsed page numbers — which is at least 1 only when every parsed
number is (an anchor at `?page=0` makes it 0). -/
theorem get_total_pages_spec (hrefs : List String) (fault : Bool) :
    (fault = true → get_total_pages hrefs fault = 1) ∧
    (parsedPages hrefs = [] → get_total_pages hrefs fault = 1) ∧
    (fault = false → ∀ p ps, parsedPages hrefs = p :: ps →
      get_total_pages hrefs fault ∈ parsedPages hrefs ∧
      ∀ x ∈ parsedPages hrefs, x ≤ get_total_pages hrefs fault) := by
  refine ⟨fun hf => by simp [get_total_pages, hf], fun he => ?_, ?_⟩
  · cases hf : fault <;> simp [get_total_pages, he, hf]
  · intro hf p ps hp
    have hne : parsedPages hrefs ≠ [] := by simp [hp]
    constructor
    · simpa [get_total_pages, hf, hp] using listMax_mem (p :: ps) (by simp)
    · intro x hx
      rw [hp] at hx
      simpa [get_total_pages, hf, hp] using le_listMax (p :: ps) x hx

/-- Witness for `get_total_pages_spec` at a concrete anchor list. -/
theorem get_total_pages_spec_witness :
    get_total_pages ["a?page=3", "b?page=7"] false ∈
      parsedPages ["a?page=3", "b?page=7"] ∧
    7 ≤ get_total_pages ["a?page=3", "b?page=7"] false :=
  ⟨((get_total_pages_spec ["a?page=3", "b?page=7"] false).2.2 rfl 3 [7]
      (by decide)).1,
   ((get_total_pages_spec ["a?page=3", "b?page=7"] false).2.2 rfl 3 [7]
      (by decide)).2 7 (by decide)⟩

/-- C4: the spec claims the header is suppressed iff the destination
exists AND already has content.  The code only probes existence
(`open(..., 'r')` succeeds on an empty file): appending one record to an
existing EMPTY file writes no header row, contradicting the biconditional. -/
theorem save_append_empty_file_cex :
    (save_to_csv (some []) [mkRec 0 0] 'a').1 = some [CsvLine.row (mkRec 0 0)] := by
  rfl

/-- C4 (amended): in append mode with a nonempty batch, the header is
suppressed iff the destination can be opened for read (exists), empty or
not; a nonexistent destination gets the header; appending to an existing
file (in particular a non-empty one) never writes a second header row. -/
theorem save_to_csv_append_header (f : FileState) (data : List Record)
    (h : data ≠ []) :
    (f = none → (save_to_csv f data 'a').1 =
      some (CsvLine.header field_names :: data.map CsvLine.row)) ∧
    (∀ ls, f = some ls → (save_to_csv f data 'a').1 =
      some (ls ++ data.map CsvLine.row)) := by
  have hne : data.isEmpty = false := by
    cases data with
    | nil => exact absurd rfl h
    | cons a l => rfl
  constructor
  · intro hf; subst hf; simp [save_to_csv, hne]
  · intro ls hf; subst hf; simp [save_to_csv, hne]

/-- Witness for `save_to_csv_append_header`: appending to a file that
already holds a header and no second header appears. -/
theorem save_to_csv_append_header_witness :
    (save_to_csv (some [CsvLine.header field_names]) [mkRec 0 0] 'a').1 =
      some ([CsvLine.header field_names] ++ [mkRec 0 0].map CsvLine.row) :=
  (save_to_csv_append_header (some [CsvLine.header field_names]) [mkRec 0 0]
    (by decide)).2 [CsvLine.header field_names] rfl

/-- C7: `extract_data` returns `[]` on an extraction-wide fault, and
otherwise one record per listing, in order, built by `recordOf`: every
record carries the capture timestamp and all four keys, an absent
sub-field yields the literal `"N/A"`, and a present text value is
stripped of leading and trailing whitespace. -/
theorem extract_data_spec (listings : List Listing) (ts : String) :
    extract_data listings ts true = [] ∧
    extract_data listings ts false = listings.map (recordOf ts) ∧
    (extract_data listings ts false).length = listings.length ∧
    ∀ c : Listing,
      (recordOf ts c).timestamp = ts ∧
      (c.name = none → (recordOf ts c).name = "N/A") ∧
      (∀ s, c.name = some s → (recordOf ts c).name = pyStrip s) ∧
      (c.location = none → (recordOf ts c).location = "N/A") ∧
      (∀ s, c.location = some s → (recordOf ts c).location = pyStrip s) ∧
      (c.revenue = none → (recordOf ts c).revenue = "N/A") ∧
      (∀ s, c.revenue = some s → (recordOf ts c).revenue = pyStrip s) ∧
      (c.employees = none → (recordOf ts c).employees = "N/A") ∧
      (∀ s, c.employees = some s → (recordOf ts c).employees = pyStrip s) := by
  refine ⟨rfl, rfl, by simp [extract_data], fun c => ?_⟩
  refine ⟨rfl, fun hc => ?_, fun s hc => ?_, fun hc => ?_, fun s hc => ?_,
    fun hc => ?_, fun s hc => ?_, fun hc => ?_, fun s hc => ?_⟩ <;>
    simp [recordOf, hc] <;> decide

/-- Witness for `extract_data_spec` at a listing with an absent name and
a whitespace-padded location. -/
theorem extract_data_spec_witness :
    (recordOf "T" ⟨none, some " Bonn ", none, none⟩).name = "N/A" ∧
    (recordOf "T" ⟨none, some " Bonn ", none, none⟩).location = pyStrip " Bonn " :=
  ⟨((extract_data_spec [⟨none, some " Bonn ", none, none⟩] "T").2.2.2
      ⟨none, some " Bonn ", none, none⟩).2.1 rfl,
   ((extract_data_spec [⟨none, some " Bonn ", none, none⟩] "T").2.2.2
      ⟨none, some " Bonn ", none, none⟩).2.2.2.2.1 " Bonn " rfl⟩

/-- C9: `navigate_to_url` is a total boolean function (it never raises):
it returns `true` exactly when the page loaded with a status below 400,
and `false` exactly on timeout, missing response, any other navigation
fault, or a status of 400 or more. -/
theorem navigate_to_url_spec (o : NavOutcome) :
    (navigate_to_url o = true ↔ ∃ s, o = .loaded s ∧ s < 400) ∧
    (navigate_to_url o = false ↔
      o = .timeout ∨ o = .noResponse ∨ o = .fault ∨
        ∃ s, o = .loaded s ∧ 400 ≤ s) := by
  cases o with
  | loaded s =>
    by_cases hs : s < 400 <;> simp [navigate_to_url, hs] <;> omega
  | timeout => simp [navigate_to_url]
  | noResponse => simp [navigate_to_url]
  | fault => simp [navigate_to_url]

theorem delaysIn_append (es es' : List Event) :
    delaysIn (es ++ es') = delaysIn es ++ delaysIn es' := by
  simp [delaysIn]

theorem navsIn_append (es es' : List Event) :
    navsIn (es ++ es') = navsIn es ++ navsIn es' := by
  simp [navsIn]

theorem extractsIn_append (es es' : List Event) :
    extractsIn (es ++ es') = extractsIn es ++ extractsIn es' := by
  simp [extractsIn]

theorem savesIn_append (es es' : List Event) :
    savesIn (es ++ es') = savesIn es ++ savesIn es' := by
  simp [savesIn]

theorem joinAll_append (l l' : List (List Record)) :
    joinAll (l ++ l') = joinAll l ++ joinAll l' := by
  induction l with
  | nil => simp [joinAll]
  | cons a t ih => simp [joinAll, ih]

theorem delaysIn_stepEvents (env : RunEnv) (total p : Nat) (acc : List Record) :
    delaysIn (stepEvents env total p acc) =
      if p < total then [env.delayVal p] else [] := by
  unfold stepEvents delaysIn
  rcases Nat.lt_or_ge 1 p with h1 | h1 <;>
    rcases hf : flushAt total p with _ | _ <;>
    rcases Nat.lt_or_ge p total with h2 | h2 <;>
    simp [h1, h2, Nat.not_lt.mpr h1, Nat.not_lt.mpr h2]

theorem navsIn_stepEvents (env : RunEnv) (total p : Nat) (acc : List Record) :
    navsIn (stepEvents env total p acc) =
      if 1 < p then [(pageUrl env.url p, true)] else [] := by
  unfold stepEvents navsIn
  rcases Nat.lt_or_ge 1 p with h1 | h1 <;>
    rcases hf : flushAt total p with _ | _ <;>
    rcases Nat.lt_or_ge p total with h2 | h2 <;>
    simp [h1, h2, Nat.not_lt.mpr h1, Nat.not_lt.mpr h2]

theorem extractsIn_stepEvents (env : RunEnv) (total p : Nat) (acc : List Record) :
    extractsIn (stepEvents env total p acc) = [(p, env.pageRecords p)] := by
  unfold stepEvents extractsIn
  rcases Nat.lt_or_ge 1 p with h1 | h1 <;>
    rcases hf : flushAt total p with _ | _ <;>
    rcases Nat.lt_or_ge p total with h2 | h2 <;>
    simp [h1, h2, Nat.not_lt.mpr h1, Nat.not_lt.mpr h2]

theorem savesIn_stepEvents (env : RunEnv) (total p : Nat) (acc : List Record) :
    savesIn (stepEvents env total p acc) =
      if flushAt total p then [acc ++ env.pageRecords p] else [] := by
  unfold stepEvents savesIn
  rcases Nat.lt_or_ge 1 p with h1 | h1 <;>
    rcases hf : flushAt total p with _ | _ <;>
    rcases Nat.lt_or_ge p total with h2 | h2 <;>
    simp [h1, h2, hf, Nat.not_lt.mpr h1, Nat.not_lt.mpr h2]

theorem delaysIn_runPages (env : RunEnv) (total : Nat) :
    ∀ (pages : List Nat) (s : LoopState),
      delaysIn (runPages env total pages s).events =
        delaysIn s.events ++
          (pages.filter (fun p => !skipped env p && decide (p < total))).map
            env.delayVal
  | [], s => by simp [runPages]
  | p :: rest, s => by
    rw [runPages]
    by_cases hs : skipped env p = true
    · rw [if_pos hs, delaysIn_runPages env total rest]
      simp [delaysIn_append, delaysIn, hs]
    · have hs' : skipped env p = false := by simpa using hs
      rw [if_neg hs, delaysIn_runPages env total rest]
      simp only [delaysIn_append, delaysIn_stepEvents, List.filter_cons, hs',
        Bool.not_false, Bool.true_and]
      rcases Nat.lt_or_ge p total with h2 | h2 <;>
        simp [h2, Nat.not_lt.mpr h2]

theorem navsIn_runPages (env : RunEnv) (total : Nat) :
    ∀ (pages : List Nat) (s : LoopState),
      navsIn (runPages env total pages s).events =
        navsIn s.events ++
          (pages.filter (fun p => decide (1 < p))).map
            (fun p => (pageUrl env.url p, env.navOk p))
  | [], s => by simp [runPages]
  | p :: rest, s => by
    rw [runPages]
    by_cases hs : skipped env p = true
    · rw [if_pos hs, navsIn_runPages env total rest]
      have hab : 1 < p ∧ env.navOk p = false := by
        have h := hs
        simp only [skipped, Bool.and_eq_true, decide_eq_true_eq,
          Bool.not_eq_true'] at h
        exact h
      simp [navsIn_append, navsIn, hab.1, hab.2]
    · have hs' : skipped env p = false := by simpa using hs
      rw [if_neg hs, navsIn_runPages env total rest]
      have himp : 1 < p → env.navOk p = true := by simpa [skipped] using hs'
      rcases Nat.lt_or_ge 1 p with h1 | h1
      · simp [navsIn_append, navsIn_stepEvents, h1, himp h1]
      · simp [navsIn_append, navsIn_stepEvents, Nat.not_lt.mpr h1]

theorem extractsIn_runPages (env : RunEnv) (total : Nat) :
    ∀ (pages : List Nat) (s : LoopState),
      extractsIn (runPages env total pages s).events =
        extractsIn s.events ++
          (pages.filter (fun p => !skipped env p)).map
            (fun p => (p, env.pageRecords p))
  | [], s => by simp [runPages]
  | p :: rest, s => by
    rw [runPages]
    by_cases hs : skipped env p = true
    · rw [if_pos hs, extractsIn_runPages env total rest]
      simp [extractsIn_append, extractsIn, hs]
    · have hs' : skipped env p = false := by simpa using hs
      rw [if_neg hs, extractsIn_runPages env total rest]
      simp [extractsIn_append, extractsIn_stepEvents, hs']

theorem savesIn_runPages (env : RunEnv) (total : Nat) :
    ∀ (pages : List Nat) (s : LoopState),
      joinAll (savesIn (runPages env total pages s).events) ++
          (runPages env total pages s).acc =
        joinAll (savesIn s.events) ++ s.acc ++
          joinAll ((pages.filter (fun p => !skipped env p)).map env.pageRecords)
  | [], s => by simp [runPages, joinAll]
  | p :: rest, s => by
    rw [runPages]
    by_cases hs : skipped env p = true
    · rw [if_pos hs, savesIn_runPages env total rest]
      simp [savesIn_append, savesIn, hs]
    · have hs' : skipped env p = false := by simpa using hs
      rw [if_neg hs, savesIn_runPages env total rest]
      simp only [savesIn_append, savesIn_stepEvents, List.filter_cons, hs',
        Bool.not_false, List.map_cons, joinAll]
      by_cases hf : flushAt total p = true
      · simp [stepAcc, hf, joinAll_append, joinAll, List.append_assoc]
      · have hf' : flushAt total p = false := by simpa using hf
        simp [stepAcc, hf', joinAll_append, joinAll, List.append_assoc]

theorem str_append_assoc (a b c : String) : a ++ b ++ c = a ++ (b ++ c) := by
  cases a with
  | mk la =>
    cases b with
    | mk lb =>
      cases c with
      | mk lc => exact congrArg String.mk (List.append_assoc la lb lc)

theorem delaysIn_run (env : RunEnv) (f0 : FileState) (mp : Option Nat)
    (h1 : env.navOk 1 = true) :
    delaysIn (run env f0 mp).events =
      ((List.range' 1 (runTotal env mp)).filter
        (fun p => !skipped env p && decide (p < runTotal env mp))).map
        env.delayVal := by
  unfold run
  rw [if_pos h1]
  by_cases hacc : (runLoopResult env f0 mp).acc.isEmpty = true
  · rw [if_pos hacc]
    show delaysIn ((runLoopResult env f0 mp).events ++ [Event.close]) = _
    rw [delaysIn_append, runLoopResult, delaysIn_runPages]
    simp [delaysIn]
  · rw [if_neg hacc]
    show delaysIn ((runLoopResult env f0 mp).events ++ _) = _
    rw [delaysIn_append, runLoopResult, delaysIn_runPages]
    simp [delaysIn]

theorem navsIn_run (env : RunEnv) (f0 : FileState) (mp : Option Nat)
    (h1 : env.navOk 1 = true) :
    navsIn (run env f0 mp).events =
      (env.url, true) ::
        ((List.range' 1 (runTotal env mp)).filter (fun p => decide (1 < p))).map
          (fun p => (pageUrl env.url p, env.navOk p)) := by
  unfold run
  rw [if_pos h1]
  by_cases hacc : (runLoopResult env f0 mp).acc.isEmpty = true
  · rw [if_pos hacc]
    show navsIn ((runLoopResult env f0 mp).events ++ [Event.close]) = _
    rw [navsIn_append, runLoopResult, navsIn_runPages]
    simp [navsIn]
  · rw [if_neg hacc]
    show navsIn ((runLoopResult env f0 mp).events ++ _) = _
    rw [navsIn_append, runLoopResult, navsIn_runPages]
    simp [navsIn]

theorem extractsIn_run (env : RunEnv) (f0 : FileState) (mp : Option Nat)
    (h1 : env.navOk 1 = true) :
    extractsIn (run env f0 mp).events =
      ((List.range' 1 (runTotal env mp)).filter (fun p => !skipped env p)).map
        (fun p => (p, env.pageRecords p)) := by
  unfold run
  rw [if_pos h1]
  by_cases hacc : (runLoopResult env f0 mp).acc.isEmpty = true
  · rw [if_pos hacc]
    show extractsIn ((runLoopResult env f0 mp).events ++ [Event.close]) = _
    rw [extractsIn_append, runLoopResult, extractsIn_runPages]
    simp [extractsIn]
  · rw [if_neg hacc]
    show extractsIn ((runLoopResult env f0 mp).events ++ _) = _
    rw [extractsIn_append, runLoopResult, extractsIn_runPages]
    simp [extractsIn]

theorem savesIn_run_join (env : RunEnv) (f0 : FileState) (mp : Option Nat)
    (h1 : env.navOk 1 = true) :
    joinAll (savesIn (run env f0 mp).events) =
      joinAll (((List.range' 1 (runTotal env mp)).filter
        (fun p => !skipped env p)).map env.pageRecords) := by
  have key : joinAll (savesIn (runLoopResult env f0 mp).events) ++
      (runLoopResult env f0 mp).acc =
      joinAll (((List.range' 1 (runTotal env mp)).filter
        (fun p => !skipped env p)).map env.pageRecords) := by
    rw [runLoopResult, savesIn_runPages]
    simp [savesIn, joinAll]
  unfold run
  rw [if_pos h1]
  by_cases hacc : (runLoopResult env f0 mp).acc.isEmpty = true
  · rw [if_pos hacc]
    have hnil : (runLoopResult env f0 mp).acc = [] := by
      simpa using hacc
    show joinAll (savesIn ((runLoopResult env f0 mp).events ++ [Event.close])) = _
    rw [savesIn_append]
    rw [hnil] at key
    simpa [savesIn, joinAll] using key
  · rw [if_neg hacc]
    show joinAll (savesIn ((runLoopResult env f0 mp).events ++ _)) = _
    rw [savesIn_append, joinAll_append]
    simpa [savesIn, joinAll] using key

/-- C3: in a run over 12 discovered pages with 4 records per page and no
navigation failures, `save_to_csv` is invoked exactly 3 times — right
after the extractions of pages 5, 10 and 12 — with the batches being the
records of pages 1-5, 6-10 and 11-12 in insertion order, of sizes 20, 20
and 8. -/
theorem run_flush_cadence_12x4 :
    obsIn (run env12 none none).events =
      [Sum.inl 1, Sum.inl 2, Sum.inl 3, Sum.inl 4, Sum.inl 5, Sum.inr batch1,
       Sum.inl 6, Sum.inl 7, Sum.inl 8, Sum.inl 9, Sum.inl 10, Sum.inr batch2,
       Sum.inl 11, Sum.inl 12, Sum.inr batch3] ∧
    batch1.length = 20 ∧ batch2.length = 20 ∧ batch3.length = 8 := by
  refine ⟨?_, by decide, by decide, by decide⟩
  decide

/-- C1: the incremental flushes of one run use `self.save_to_csv(all_data)`
with the DEFAULT mode `'w'` (src/scraper.py lines 100, 164), so each flush
truncates the output file.  In the 12-page, 4-records-per-page run with no
navigation failures, 48 records are extracted but the final file holds
only the header and the 8 records of the LAST batch (pages 11-12): the
earlier flushed rows are discarded, refuting append-only persistence. -/
theorem run_overwrites_previous_flushes :
    (run env12 none none).file =
      some (CsvLine.header field_names :: batch3.map CsvLine.row) ∧
    (joinAll ((extractsIn (run env12 none none).events).map Prod.snd)).length = 48 ∧
    batch3.length = 8 := by
  refine ⟨?_, ?_, by decide⟩ <;> decide

/-- C6: when the very first navigation fails, `run` skips the whole page
loop: no page is extracted, `save_to_csv` is never invoked, the output
file is untouched, and the browser is closed directly; no exception
escapes (the model is a total function). -/
theorem run_first_nav_failure (env : RunEnv) (f0 : FileState)
    (mp : Option Nat) (h : env.navOk 1 = false) :
    run env f0 mp = ⟨[Event.navigate env.url false, Event.close], f0⟩ ∧
    extractsIn (run env f0 mp).events = [] ∧
    savesIn (run env f0 mp).events = [] ∧
    (run env f0 mp).file = f0 := by
  have he : run env f0 mp = ⟨[Event.navigate env.url false, Event.close], f0⟩ := by
    simp [run, h]
  exact ⟨he, by rw [he]; rfl, by rw [he]; rfl, by rw [he]⟩

/-- Witness for `run_first_nav_failure` at a concrete environment whose
navigations all fail, over a concrete pre-existing output file. -/
theorem run_first_nav_failure_witness :
    run envFail (some [CsvLine.header field_names]) none =
      ⟨[Event.navigate "https://x.test/list" false, Event.close],
        some [CsvLine.header field_names]⟩ :=
  (run_first_nav_failure envFail (some [CsvLine.header field_names]) none rfl).1

/-- C5: the spec claims a randomized delay follows every successful OR
SKIPPED page except the last.  In the code a failed navigation executes
`continue`, which jumps past the delay: in a 3-page run where page 2's
navigation fails, the trace holds exactly ONE delay (after page 1) and
none after the skipped non-final page 2. -/
theorem run_skipped_page_no_delay_cex :
    (run env3 none none).events =
      [Event.navigate "u" true, Event.extract 1 [mkRec 1 0], Event.delay 2,
       Event.navigate "u?page=2" false, Event.navigate "u?page=3" true,
       Event.extract 3 [mkRec 3 0], Event.save [mkRec 1 0, mkRec 3 0],
       Event.close] ∧
    delaysIn (run env3 none none).events = [2] := by
  refine ⟨?_, ?_⟩ <;> decide

/-- C5 (amended): during a run whose first navigation succeeds, exactly
one delay — of the value drawn for that page, lying in the configured
`[lo, hi]` when the sampler respects those bounds — follows every
successfully processed page except the last; skipped (navigation-failed)
pages and the final page are followed by no delay. -/
theorem run_delay_cadence (env : RunEnv) (f0 : FileState) (lo hi : ℚ)
    (h1 : env.navOk 1 = true)
    (hb : ∀ p, lo ≤ env.delayVal p ∧ env.delayVal p ≤ hi) :
    delaysIn (run env f0 none).events =
      ((List.range' 1 env.totalDiscovered).filter
        (fun p => !skipped env p && decide (p < env.totalDiscovered))).map
        env.delayVal ∧
    ∀ d ∈ delaysIn (run env f0 none).events, lo ≤ d ∧ d ≤ hi := by
  have hmain := delaysIn_run env f0 none h1
  refine ⟨hmain, fun d hd => ?_⟩
  rw [hmain] at hd
  rcases List.mem_map.mp hd with ⟨p, _, hpd⟩
  exact hpd ▸ hb p

/-- Witness for `run_delay_cadence` at the 12-page environment with the
constant sample 2 inside the bounds [1, 3]. -/
theorem run_delay_cadence_witness :
    delaysIn (run env12 none none).events =
      ((List.range' 1 env12.totalDiscovered).filter
        (fun p => !skipped env12 p && decide (p < env12.totalDiscovered))).map
        env12.delayVal :=
  (run_delay_cadence env12 none 1 3 rfl (fun _ => by norm_num [env12])).1

/-- C8: for every page `k >= 2` the navigation of the run uses the URL
built by appending `&page=k` when the base URL contains `?` and `?page=k`
otherwise; every such page is attempted exactly once (no retry), a page
whose navigation fails contributes no extraction, and the remaining pages
of the run are still processed. -/
theorem run_page_urls (env : RunEnv) (f0 : FileState)
    (h1 : env.navOk 1 = true) :
    (∀ (base : String) (k : Nat),
      (base.toList.contains '?' = true →
        pageUrl base k = base ++ "&page=" ++ toString k) ∧
      (base.toList.contains '?' = false →
        pageUrl base k = base ++ "?page=" ++ toString k)) ∧
    navsIn (run env f0 none).events =
      (env.url, true) ::
        ((List.range' 1 env.totalDiscovered).filter
          (fun p => decide (1 < p))).map
          (fun p => (pageUrl env.url p, env.navOk p)) ∧
    extractsIn (run env f0 none).events =
      ((List.range' 1 env.totalDiscovered).filter (fun p => !skipped env p)).map
        (fun p => (p, env.pageRecords p)) := by
  refine ⟨fun base k => ⟨fun hq => ?_, fun hq => ?_⟩,
    navsIn_run env f0 none h1, extractsIn_run env f0 none h1⟩
  · rw [pageUrl, if_pos hq, str_append_assoc base "&" "page="]
    rfl
  · have hne : ¬ (base.toList.contains '?' = true) := by
      rw [hq]; exact Bool.false_ne_true
    rw [pageUrl, if_neg hne, str_append_assoc base "?" "page="]
    rfl

/-- Witness for `run_page_urls`: the spec's URL scenario, including the
`?region=de` base, and the navigations of the 3-page run with a failure
on page 2. -/
theorem run_page_urls_witness :
    pageUrl "https://x.test/list?region=de" 2 =
      "https://x.test/list?region=de" ++ "&page=" ++ toString 2 ∧
    pageUrl "https://x.test/list" 2 =
      "https://x.test/list" ++ "?page=" ++ toString 2 ∧
    navsIn (run envX none none).events =
      [("https://x.test/list", true), ("https://x.test/list?page=2", true),
       ("https://x.test/list?page=3", true)] := by
  refine ⟨((run_page_urls envX none rfl).1 "https://x.test/list?region=de" 2).1
      (by decide),
    ((run_page_urls envX none rfl).1 "https://x.test/list" 2).2 (by decide), ?_⟩
  rw [(run_page_urls envX none rfl).2.1]
  decide

/-- C10: within one run (whose first navigation succeeds), the batches
handed to successive `save_to_csv` invocations concatenate to exactly the
stream of records extracted across the run's pages, in order: the
accumulator is reset after every flush, so the batches are disjoint
consecutive segments and no record reaches the writer twice. -/
theorem run_batches_partition (env : RunEnv) (f0 : FileState)
    (h1 : env.navOk 1 = true) :
    joinAll (savesIn (run env f0 none).events) =
      joinAll ((extractsIn (run env f0 none).events).map Prod.snd) := by
  rw [savesIn_run_join env f0 none h1, extractsIn_run env f0 none h1]
  simp [List.map_map, Function.comp_def]

/-- Witness for `run_batches_partition` at the 3-page environment with a
navigation failure on page 2. -/
theorem run_batches_partition_witness :
    joinAll (savesIn (run env3 none none).events) =
      joinAll ((extractsIn (run env3 none none).events).map Prod.snd) :=
  run_batches_partition env3 none rfl

end Scraper
